import Mathlib

/-!
Shallow embedding of the prepipy image-processing core (src/framework.py).

Pixel intensities are modelled as exact rationals; a possible NaN entry is
modelled as `Option ℚ` (with `none` standing for NaN) in the code paths that
manipulate NaNs (`Frame.clip_and_nan`, `Frame.__init__`).  The floating-point
square root inside `np.nanstd` is modelled by the computable rational square
root `Rat.sqrt` (exact on perfect squares, nonnegative everywhere, which are
the only properties the development relies on).  Exceptions raised by the
Python code are modelled with `Except` / an `Option PyErr` second component;
in-place mutation is modelled by returning the new state.
-/

namespace Prepipy

/-- Decidable equality of `Except` values (not provided by core). -/
instance exceptDecEq {ε α : Type} [DecidableEq ε] [DecidableEq α] :
    DecidableEq (Except ε α) := fun a b =>
  match a, b with
  | .error e, .error e2 =>
    if h : e = e2 then .isTrue (by rw [h])
    else .isFalse (by intro hc; cases hc; exact h rfl)
  | .ok v, .ok v2 =>
    if h : v = v2 then .isTrue (by rw [h])
    else .isFalse (by intro hc; cases hc; exact h rfl)
  | .error _, .ok _ => .isFalse (by intro hc; cases hc)
  | .ok _, .error _ => .isFalse (by intro hc; cases hc)

/-- The Python exceptions that the modelled code paths can raise. -/
inductive PyErr where
  /-- `BandExistsError` raised by `Picture._check_band` (framework.py:660). -/
  | bandExistsError
  /-- `ValueError("bands contains duplicates")` (framework.py:936). -/
  | valueErrorDuplicates
  /-- `ValueError("RGB accepts up to 4 channels.")` (framework.py:938). -/
  | valueErrorCardinality
  /-- `ValueError("weights mode not understood")` (framework.py:971). -/
  | valueErrorWeights
  /-- `ValueError` from unpacking `zip(*[])` (framework.py:968 with no channels). -/
  | valueErrorUnpack
  /-- `raise UserWarning(...)` for unordered wavelengths (framework.py:950). -/
  | userWarning
  /-- `KeyError` from `itemgetter(*bands)(frames_dict)` on a missing name. -/
  | keyError
  /-- `TypeError`, e.g. the staticmethod `Frame.clipped_stats` called without
  its `data` argument (framework.py:966), or `map` over a non-iterable Frame. -/
  | typeError
  /-- A failed `assert` statement. -/
  | assertionError
  /-- `ValueError("clip must be positive integer or 0.")` (framework.py:315). -/
  | valueErrorClip
  /-- `ValueError("nanmode not understood")` (framework.py:327). -/
  | valueErrorNanmode
  /-- `ValueError("sky_mode not understood")` (framework.py:439). -/
  | valueErrorSkyMode
  /-- `ValueError("max_mode not understood")` (framework.py:450). -/
  | valueErrorMaxMode
  /-- `ZeroDivisionError`, e.g. `luminance` / `adjust_rgb` with no channels. -/
  | zeroDivisionError
deriving DecidableEq, Repr

/-! ## NaN-aware array statistics (numpy nan-functions on `List (Option ℚ)`) -/

/-- The real (non-NaN) entries of an array, in order. -/
def reals : List (Option ℚ) → List ℚ
  | [] => []
  | none :: t => reals t
  | some q :: t => q :: reals t

/-- Arithmetic mean of a nonempty list of rationals. -/
def meanQ (xs : List ℚ) : ℚ := xs.sum / (xs.length : ℚ)

/-- `np.nanmean`: mean of the non-NaN entries, NaN (`none`) if there are none. -/
def nanmean (xs : List (Option ℚ)) : Option ℚ :=
  if reals xs = [] then none else some (meanQ (reals xs))

/-- `np.nanmax`: maximum of the non-NaN entries, NaN (`none`) if there are none. -/
def nanmax (xs : List (Option ℚ)) : Option ℚ :=
  match reals xs with
  | [] => none
  | r :: rs => some (rs.foldl max r)

/-- Population variance of the non-NaN entries (the quantity under the square
root in `np.nanstd`, which uses `ddof = 0`). -/
def nanvar (xs : List (Option ℚ)) : Option ℚ :=
  match reals xs with
  | [] => none
  | r :: rs =>
    let m := meanQ (r :: rs)
    some (meanQ ((r :: rs).map (fun x => (x - m) ^ 2)))

/-- `np.nanstd`: square root of the population variance of the non-NaN
entries.  The floating-point square root is modelled by `Rat.sqrt`. -/
def nanstd (xs : List (Option ℚ)) : Option ℚ := (nanvar xs).map Rat.sqrt

/-! ## `Frame.clip_and_nan` (framework.py:281-331) -/

/-- `self.image.clip(None, upper_limit)`: an upper clip.  A NaN upper limit
(possible when every entry is NaN) propagates NaN to every pixel, matching
`np.minimum` semantics; NaN entries stay NaN. -/
def clipUpper (image : List (Option ℚ)) (u : Option ℚ) : List (Option ℚ) :=
  match u with
  | none => image.map (fun _ => none)
  | some ub => image.map (Option.map (fun x => min x ub))

/-- `np.nan_to_num(self.image, copy=False, nan=v)`: replace NaN entries by `v`
(itself possibly NaN, in which case they stay NaN). -/
def fillNan (image : List (Option ℚ)) (v : Option ℚ) : List (Option ℚ) :=
  image.map (fun x => match x with | none => v | some q => some q)

/-- The clipping stage of `Frame.clip_and_nan` (framework.py:313-318): if
`clip` is truthy (nonzero) it must not be negative (`ValueError`); the upper
limit `np.nanmax(image)` is then replaced by `med + clip * np.nanstd(image)`
(NaN when the image holds no real value) and the image is clipped from above.
Returns the possibly clipped image together with the final `upper_limit`. -/
def clipStep (image : List (Option ℚ)) (clip : ℚ) :
    Except PyErr (List (Option ℚ) × Option ℚ) :=
  if clip ≠ 0 then
    if clip < 0 then .error .valueErrorClip
    else
      let upper : Option ℚ :=
        match nanmean image, nanstd image with
        | some m, some s => some (m + clip * s)
        | _, _ => none
      .ok (clipUpper image upper, upper)
  else .ok (image, nanmax image)

/-- The NaN replacement value dispatch of `Frame.clip_and_nan`
(framework.py:320-327): the (clipped) upper limit for `nanmode = "max"`, the
value of the Python variable `med` — which holds the nanmean — for
`nanmode = "median"`, and `ValueError` otherwise. -/
def nanValue (med upper : Option ℚ) (nanmode : String) :
    Except PyErr (Option ℚ) :=
  if nanmode = "max" then .ok upper
  else if nanmode = "median" then .ok med
  else .error .valueErrorNanmode

/-- `assert np.isnan(self.image).sum() == 0` (framework.py:331). -/
def assertNoNan (img : List (Option ℚ)) : Except PyErr (List (Option ℚ)) :=
  if img.any Option.isNone then .error .assertionError else .ok img

/-- `Frame.clip_and_nan(clip, nanmode)` (framework.py:281-331).
Computes `med = np.nanmean(image)` and the upper limit, clips if `clip` is
nonzero, replaces NaNs by the mode-selected value, and asserts no NaN
remains.  The mutated image is returned on success. -/
def clip_and_nan (image : List (Option ℚ)) (clip : ℚ) (nanmode : String) :
    Except PyErr (List (Option ℚ)) :=
  match clipStep image clip with
  | .error e => .error e
  | .ok (img1, upper) =>
    match nanValue (nanmean image) upper nanmode with
    | .error e => .error e
    | .ok v => assertNoNan (fillNan img1 v)

/-! ## `Frame.normalize` (framework.py:343-388)

Frame images contain no NaN after construction (the `clip_and_nan`
postcondition asserted at framework.py:331), so `np.nanmin` / `np.nanmax`
coincide with plain min / max and the image is modelled as `List ℚ` here. -/

/-- `np.nanmin` on a NaN-free array (junk value 0 on the empty array, which
numpy rejects; theorems assume nonempty input). -/
def nanminQ (xs : List ℚ) : ℚ :=
  match xs with
  | [] => 0
  | x :: t => t.foldl min x

/-- `np.nanmax` on a NaN-free array (junk value 0 on the empty array). -/
def nanmaxQ (xs : List ℚ) : ℚ :=
  match xs with
  | [] => 0
  | x :: t => t.foldl max x

/-- `np.isclose(a, b, atol=1e-5)` with the default `rtol = 1e-5`:
`|a - b| <= atol + rtol * |b|`. -/
def npIsClose (a b : ℚ) : Bool :=
  decide (|a - b| ≤ 1 / 100000 + 1 / 100000 * |b|)

/-- Result of `Frame.normalize`: the mutated image plus the returned pair
`(data_range, data_max)` (the values before normalisation). -/
structure NormalizeResult where
  image : List ℚ
  data_range : ℚ
  data_max : ℚ
deriving DecidableEq, Repr

/-- `Frame.normalize(new_range, new_offset)` (framework.py:343-388).
Short-circuits, leaving the image untouched, when the current min and max are
already `np.isclose` to `(0, 1)` with `atol = 1e-5`; otherwise subtracts the
min, divides by the range, multiplies by `new_range` and adds `new_offset`
(the failed-assert branch only logs).  Returns the pre-call range and max. -/
def normalize (image : List ℚ) (new_range : ℚ) (new_offset : ℚ) :
    NormalizeResult :=
  let data_max := nanmaxQ image
  let data_min := nanminQ image
  let data_range := data_max - data_min
  if npIsClose data_min 0 && npIsClose data_max 1 then
    ⟨image, data_range, data_max⟩
  else
    ⟨image.map (fun x => (x - data_min) / data_range * new_range + new_offset),
     data_range, data_max⟩

/-! ## Sorting, median, quantile, sigma-clipped statistics -/

/-- Insert into a sorted list (ascending). -/
def insertSorted (x : ℚ) : List ℚ → List ℚ
  | [] => [x]
  | y :: ys => if x ≤ y then x :: y :: ys else y :: insertSorted x ys

/-- Ascending insertion sort, modelling `np.sort`. -/
def sortQ (xs : List ℚ) : List ℚ := xs.foldr insertSorted []

/-- `np.median` / `np.nanmedian` on a NaN-free nonempty array: middle element
of the sorted data, or the mean of the two middle elements for even length
(junk value 0 on the empty array). -/
def medianQ (xs : List ℚ) : ℚ :=
  let s := sortQ xs
  let n := s.length
  if n = 0 then 0
  else if n % 2 = 1 then s.getD (n / 2) 0
  else (s.getD (n / 2 - 1) 0 + s.getD (n / 2) 0) / 2

/-- `np.quantile(xs, q)` with the default linear interpolation: with sorted
data `s` of length `n`, the value at fractional position `q * (n - 1)`
(junk value 0 on the empty array, which numpy rejects). -/
def quantileQ (xs : List ℚ) (q : ℚ) : ℚ :=
  let s := sortQ xs
  let n := s.length
  if n = 0 then 0
  else
    let h : ℚ := q * ((n : ℚ) - 1)
    let i : ℕ := h.floor.toNat
    let g : ℚ := h - (i : ℚ)
    let lo := s.getD i 0
    let hi := s.getD (min (i + 1) (n - 1)) 0
    lo + g * (hi - lo)

/-- The constant of `astropy.stats.mad_std`: `1 / Phi^{-1}(3/4)`, whose
floating-point value 1.482602218505602 is carried over as an exact rational. -/
def madK : ℚ := 1482602218505602 / 1000000000000000

/-- `astropy.stats.mad_std`: scaled median absolute deviation about the
median. -/
def madStd (xs : List ℚ) : ℚ :=
  madK * medianQ (xs.map (fun x => |x - medianQ xs|))

/-- One iteration of astropy sigma clipping with `cenfunc="median"`,
`stdfunc="mad_std"`, `sigma_upper=5`, `sigma_lower=3`: keep the points within
`[center - 3 * std, center + 5 * std]`. -/
def sigmaClipIter (xs : List ℚ) : List ℚ :=
  let c := medianQ xs
  let s := madStd xs
  xs.filter (fun x => decide (c - 3 * s ≤ x) && decide (x ≤ c + 5 * s))

/-- Iterated sigma clipping, stopping at a fixpoint or after `fuel`
iterations (astropy default `maxiters = 5`). -/
def sigmaClipped : ℕ → List ℚ → List ℚ
  | 0, xs => xs
  | fuel + 1, xs =>
    let ys := sigmaClipIter xs
    if ys = xs then xs else sigmaClipped fuel ys

/-- Population variance of a nonempty list (junk value 0 on the empty list). -/
def varQ (xs : List ℚ) : ℚ :=
  let m := meanQ xs
  meanQ (xs.map (fun x => (x - m) ^ 2))

/-- `Frame.clipped_stats(data)` (framework.py:390-402).  Model of the external
collaborator `astropy.stats.sigma_clipped_stats(data, cenfunc="median",
stdfunc="mad_std", sigma_upper=5, sigma_lower=3)`, following spec section 4.1:
iterative rejection about a robust center and scale (astropy maxiters = 5),
then `(mean, median, std)` of the surviving data (`Rat.sqrt` again modelling
the floating-point square root).  The unclipped statistics computed first in
the Python code are only logged and are not part of the returned value. -/
def clipped_stats (data : List ℚ) : ℚ × ℚ × ℚ :=
  let clipped := sigmaClipped 5 data
  (meanQ clipped, medianQ clipped, Rat.sqrt (varQ clipped))

/-! ## `Frame._apply_mask` and `Frame._min_inten` (framework.py:404-458)

The Frame image is NaN-free at this point (`clip_and_nan` postcondition), so
the data is a `List ℚ`.  The Python expression `grey_level ** gamma_lum` is a
real power that is not closed over the rationals; the embedding takes its
value `p_grey_g` (framework.py:452) as the parameter, exactly as the claim
does ("grey_level ** gamma_lum < 1"). -/

/-- `Frame._apply_mask(data, mask)` (framework.py:404-418): no mask, a mask
without any used pixel, or a mask whose boolean indexing fails (modelled as a
length mismatch, the `IndexError` case) leave the data unchanged; otherwise
the mask selects the marked entries. -/
def apply_mask (data : List ℚ) (mask : Option (List Bool)) : List ℚ :=
  match mask with
  | none => data
  | some m =>
    if m.countP id = 0 then data
    else if m.length ≠ data.length then data
    else (data.zip m).filterMap (fun xb => if xb.2 then some xb.1 else none)

/-- The `sky_mode` dispatch of `Frame._min_inten` (framework.py:429-439). -/
def skyEstimate (data : List ℚ) (sky_mode : String) : Except PyErr ℚ :=
  if sky_mode = "quantile" then .ok (quantileQ data (8 / 10))
  else if sky_mode = "median" then .ok (medianQ data)
  else if sky_mode = "clipmedian" then .ok (clipped_stats data).2.1
  else if sky_mode = "debug" then .ok (1 / 100)
  else .error .valueErrorSkyMode

/-- The `max_mode` dispatch of `Frame._min_inten` (framework.py:442-450). -/
def maxEstimate (data : List ℚ) (max_mode : String) : Except PyErr ℚ :=
  if max_mode = "quantile" then .ok (quantileQ data (995 / 1000))
  else if max_mode = "max" then .ok (nanmaxQ data)
  else if max_mode = "debug" then .ok (99998 / 100000)
  else .error .valueErrorMaxMode

/-- `Frame._min_inten` (framework.py:420-458): apply the optional mask, pick
`i_sky` and `i_max` by mode, and return
`(max((i_sky - p_grey_g * i_max) / (1 - p_grey_g), 0), i_max)`. -/
def min_inten (data : List ℚ) (p_grey_g : ℚ) (sky_mode max_mode : String)
    (mask : Option (List Bool)) : Except PyErr (ℚ × ℚ) :=
  let d := apply_mask data mask
  match skyEstimate d sky_mode with
  | .error e => .error e
  | .ok i_sky =>
    match maxEstimate d max_mode with
    | .error e => .error e
    | .ok i_max =>
      .ok (max ((i_sky - p_grey_g * i_max) / (1 - p_grey_g)) 0, i_max)

/-! ## Band, Frame, Picture (framework.py:71-177, 180-198, 568-671) -/

/-- The `Band` dataclass (framework.py:71-110).  As a `@dataclass` it compares
by equality of all six fields. -/
structure Band where
  name : String
  printname : Option String := none
  wavelength : Option ℚ := none
  unit : String := "&mu;m"
  instrument : String := "unknown"
  telescope : String := "unknown"
deriving DecidableEq, Repr

/-- A `Frame` (framework.py:180-198): its band and its pixel array.  The
header / WCS bookkeeping and the cached `background` median are I/O and
logging concerns not referenced by the verified claims and are omitted. -/
structure PFrame where
  band : Band
  image : List (Option ℚ)
deriving DecidableEq, Repr

/-- `Frame.__init__` (framework.py:183-198): store the band and run
`clip_and_nan` on the image with the default arguments `clip=10`,
`nanmode="max"`; a raised exception propagates. -/
def mkFrame (image : List (Option ℚ)) (band : Band) : Except PyErr PFrame :=
  match clip_and_nan image 10 "max" with
  | .error e => .error e
  | .ok img => .ok ⟨band, img⟩

/-- A `Picture` (framework.py:568-573): its list of frames (the `name`
attribute is only used for output naming). -/
structure Picture where
  frames : List PFrame := []
deriving DecidableEq, Repr

/-- `Picture.bands` (framework.py:583-586). -/
def Picture.bands (p : Picture) : List Band := p.frames.map (·.band)

/-- The `band` argument of `Picture._check_band`: a `Band` object or a string
(any other type raises `TypeError`, which the sum type makes unrepresentable). -/
inductive BandArg where
  | band (b : Band)
  | str (s : String)

/-- A bare string is promoted with `Band(band)`: all other fields default. -/
def coerceBand : BandArg → Band
  | .band b => b
  | .str s => { name := s }

/-- `Picture._check_band` (framework.py:653-663): reject the band if an equal
`Band` (Python dataclass equality, i.e. all six fields) is already present. -/
def check_band (p : Picture) (arg : BandArg) : Except PyErr Band :=
  let b := coerceBand arg
  if b ∈ p.bands then .error .bandExistsError else .ok b

/-- `Picture.add_frame` (framework.py:665-671): check the band, construct the
Frame, append it.  A raised exception leaves the frame list unchanged. -/
def add_frame (pic : Picture) (image : List (Option ℚ)) (arg : BandArg) :
    Picture × Option PyErr :=
  match check_band pic arg with
  | .error e => (pic, some e)
  | .ok b =>
    match mkFrame image b with
    | .error e => (pic, some e)
    | .ok f => (⟨pic.frames ++ [f]⟩, none)

/-! ## RGBPicture (framework.py:822-1095) -/

/-- An `RGBPicture` (framework.py:822-829): the inherited frame list plus the
selected `rgb_channels`. -/
structure RGBPicture where
  frames : List PFrame := []
  rgb_channels : List PFrame := []
deriving DecidableEq, Repr

/-- Lookup in `frames_dict = dict((f.band.name, f) for f in self.frames)`
(framework.py:940): on duplicate names the later frame overwrites the
earlier one, as in a Python dict comprehension. -/
def lookupFrame (frames : List PFrame) (b : String) : Option PFrame :=
  frames.foldl (fun acc f => if f.band.name = b then some f else acc) none

/-- `itemgetter(*bands)(frames_dict)`: every name must be present, otherwise
`KeyError`. -/
def lookupAll (frames : List PFrame) (bands : List String) :
    Except PyErr (List PFrame) :=
  match bands.mapM (lookupFrame frames) with
  | none => .error .keyError
  | some fs => .ok fs

/-- Wavelength metadata present for every channel (framework.py:945-946). -/
def allWavelengths (chans : List PFrame) : Bool :=
  chans.all (fun c => c.band.wavelength.isSome)

/-- Channels ordered by non-increasing wavelength: each `redder` in
`zip(channels, channels[1:])` has wavelength at least that of its `bluer`
successor (framework.py:947-949). -/
def orderedByWavelength (chans : List PFrame) : Bool :=
  (chans.zip chans.tail).all
    (fun rb => decide (rb.2.band.wavelength.getD 0 ≤ rb.1.band.wavelength.getD 0))

/-- `RGBPicture.select_rgb_channels(bands)` (framework.py:901-956).
Checks for duplicates (`ValueError`), then for more than 4 names
(`ValueError`); looks the names up (`KeyError` when missing); with zero or one
name the `itemgetter` / `map` combination raises `TypeError` (`itemgetter()`
needs at least one key; with exactly one key it returns the Frame itself and
`list(map(copyfct, frame))` iterates over a non-iterable Frame — zero names
fail before the lookup, one name after it).  Otherwise `rgb_channels` is
assigned the selected (copied) frames, and only THEN, if wavelength metadata
exists for all channels but is not non-increasing, `UserWarning` is raised —
so the assignment survives the raise.  Copies are values in this pure model.
The pair returned is the new state and the raised exception, if any. -/
def select_rgb_channels (pic : RGBPicture) (bands : List String) :
    RGBPicture × Option PyErr :=
  if bands.dedup.length ≠ bands.length then (pic, some .valueErrorDuplicates)
  else if 4 < bands.length then (pic, some .valueErrorCardinality)
  else if bands.length = 0 then (pic, some .typeError)
  else
    match lookupAll pic.frames bands with
    | .error e => (pic, some e)
    | .ok selected =>
      if bands.length = 1 then (pic, some .typeError)
      else
        let pic' := { pic with rgb_channels := selected }
        if allWavelengths selected && !orderedByWavelength selected then
          (pic', some .userWarning)
        else (pic', none)

/-- The `weights` argument of `RGBPicture.norm_by_weights`: `None`, a string,
or a list of numbers. -/
inductive Weights where
  | none
  | str (s : String)
  | list (ws : List ℚ)

/-- `RGBPicture.norm_by_weights(weights)` (framework.py:958-974).
`None` is a no-op.  For the string `"auto"` the code evaluates
`chnl.clipped_stats()` — but `Frame.clipped_stats` is a staticmethod with a
required positional argument `data` (framework.py:390-391), so the call
raises `TypeError` on the first channel; with no channels the comprehension
is empty and the subsequent `zip(*[])` unpacking raises `ValueError`.  Any
other string raises `ValueError("weights mode not understood")`.  A weight
list multiplies each channel image by its weight; `zip` truncation leaves
channels beyond the list unchanged. -/
def norm_by_weights (pic : RGBPicture) (weights : Weights) :
    RGBPicture × Option PyErr :=
  match weights with
  | .none => (pic, Option.none)
  | .str s =>
    if s = "auto" then
      if pic.rgb_channels = [] then (pic, some .valueErrorUnpack)
      else (pic, some .typeError)
    else (pic, some .valueErrorWeights)
  | .list ws =>
    let weighted :=
      List.zipWith (fun c w => { c with image := c.image.map (Option.map (· * w)) })
        pic.rgb_channels ws ++ pic.rgb_channels.drop ws.length
    ({ pic with rgb_channels := weighted }, Option.none)

/-! ## `RGBPicture.luminance`, `stretch_luminance`, `adjust_rgb`
(framework.py:1012-1095)

The channel images entering these methods are NaN-free rationals, but
`stretch_luminance` divides by the luminance with no guard, so its OUTPUT
needs IEEE float semantics: 0/0 is NaN, c/0 is a signed infinity, and
infinity times zero is NaN.  `FVal` is that output domain. -/

/-- An IEEE-style double: NaN, a signed infinity (`true` = positive), or a
finite value. -/
inductive FVal where
  | nan : FVal
  | inf : Bool → FVal
  | fin : ℚ → FVal
deriving DecidableEq, Repr

/-- A negative result: a negative finite value or negative infinity (NaN is
unordered, hence not negative). -/
def FVal.isNeg : FVal → Bool
  | .nan => false
  | .inf b => !b
  | .fin q => decide (q < 0)

/-- One pixel of `RGBPicture.stretch_luminance` (framework.py:1039-1041):
`channel.image /= lum` then `channel.image *= lum_stretched`, with IEEE
semantics at a zero luminance pixel (the rationals carry no signed zero, so
zero is treated as +0, matching a luminance that IS exactly 0.0). -/
def applyLumPixel (c l s : ℚ) : FVal :=
  if l = 0 then
    if c = 0 then FVal.nan
    else if s = 0 then FVal.nan
    else if (0 < c) = (0 < s) then FVal.inf true
    else FVal.inf false
  else FVal.fin (c / l * s)

/-- Pixelwise `c / lum * lum_stretched` over whole arrays. -/
def lumRescaleChannel : List ℚ → List ℚ → List ℚ → List FVal
  | c :: cs, l :: ls, s :: ss => applyLumPixel c l s :: lumRescaleChannel cs ls ss
  | _, _, _ => []

/-- `RGBPicture.stretch_luminance(stretch_fkt_lum, gamma_lum, lum)`
(framework.py:1022-1041): compute `lum_stretched = stretch_fkt_lum(lum,
gamma_lum)`, then for every channel divide by `lum` and multiply by
`lum_stretched`, pixelwise, storing the results back into the channels. -/
def stretch_luminance (chans : List (List ℚ))
    (stretch_fkt_lum : List ℚ → ℚ → List ℚ) (gamma_lum : ℚ)
    (lum : List ℚ) : List (List FVal) :=
  let lum_stretched := stretch_fkt_lum lum gamma_lum
  chans.map (fun c => lumRescaleChannel c lum lum_stretched)

/-- `RGBPicture.luminance` (framework.py:1012-1020): pixelwise sum of the
channel images divided by the number of channels. -/
def luminance (chans : List (List ℚ)) : List ℚ :=
  match chans with
  | [] => []
  | c :: rest =>
    (rest.foldl (List.zipWith (· + ·)) c).map
      (fun x => x / ((rest.length + 1 : ℕ) : ℚ))

/-- The raw per-channel saturation formula of `RGBPicture.adjust_rgb`
(framework.py:1080-1083): start from `lum + alpha * (n_channels - 1) *
channels[i]` and subtract `alpha * channels[(i + j) % n_channels]` for
`j = 1 .. n_channels - 1`, as whole-array operations. -/
def satChannel (alpha : ℚ) (n : ℕ) (lum : List ℚ) (chans : List (List ℚ))
    (i : ℕ) : List ℚ :=
  (List.range (n - 1)).foldl
    (fun acc j => List.zipWith (fun a b => a - alpha * b) acc
      (chans.getD ((i + j + 1) % n) []))
    (List.zipWith (fun l c => l + alpha * ((n : ℚ) - 1) * c) lum
      (chans.getD i []))

/-- `new[new < 0.] = 0.` (framework.py:1084-1087). -/
def clipNegatives (xs : List ℚ) : List ℚ :=
  xs.map (fun x => if x < 0 then 0 else x)

/-- `RGBPicture.adjust_rgb(alpha, stretch_fkt_lum, gamma_lum)`
(framework.py:1043-1095), acting on the channel images: compute the
luminance, assert at most 4 channels (`AssertionError`; with zero channels
the two divisions by `n_channels` raise `ZeroDivisionError` first), divide
`alpha` by the channel count, rebuild each channel with the saturation
formula, clip its negative entries to zero, store the adjusted channels,
and finally run `stretch_luminance` with the ORIGINAL luminance. -/
def adjust_rgb (alpha : ℚ) (stretch_fkt_lum : List ℚ → ℚ → List ℚ)
    (gamma_lum : ℚ) (chans : List (List ℚ)) :
    Except PyErr (List (List FVal)) :=
  let n := chans.length
  if n = 0 then .error .zeroDivisionError
  else if ¬ n ≤ 4 then .error .assertionError
  else
    let lum := luminance chans
    let alpha' := alpha / (n : ℚ)
    let chans_adj :=
      (List.range n).map (fun i => clipNegatives (satChannel alpha' n lum chans i))
    .ok (stretch_luminance chans_adj stretch_fkt_lum gamma_lum lum)

/-! ## Helper lemmas -/

/-- The rational square root of 0 (used by concrete evaluations). -/
lemma ratSqrt_zero : Rat.sqrt 0 = 0 := by
  have h := Rat.sqrt_eq (0 : ℚ)
  rw [mul_zero, abs_zero] at h
  exact h

/-- The rational square root of 1 (used by concrete evaluations). -/
lemma ratSqrt_one : Rat.sqrt 1 = 1 := by
  have h := Rat.sqrt_eq (1 : ℚ)
  rw [mul_one, abs_one] at h
  exact h

/-- A defined standard deviation is nonnegative. -/
lemma nanstd_nonneg {xs : List (Option ℚ)} {s : ℚ} (h : nanstd xs = some s) :
    0 ≤ s := by
  unfold nanstd at h
  cases hv : nanvar xs with
  | none => rw [hv] at h; cases h
  | some v =>
    rw [hv] at h
    simp only [Option.map_some'] at h
    cases h
    exact Rat.sqrt_nonneg v

/-- Indexing a pixelwise luminance rescale. -/
lemma lumRescaleChannel_getD :
    ∀ (c l s : List ℚ) (p : ℕ), p < c.length → p < l.length → p < s.length →
      (lumRescaleChannel c l s).getD p (FVal.fin 0) =
        applyLumPixel (c.getD p 0) (l.getD p 0) (s.getD p 0)
  | _ :: _, _ :: _, _ :: _, 0, _, _, _ => rfl
  | _ :: cs, _ :: ls, _ :: ss, p + 1, hc, hl, hs =>
      lumRescaleChannel_getD cs ls ss p (by simpa using hc) (by simpa using hl)
        (by simpa using hs)
  | [], _, _, _, hc, _, _ => absurd hc (by simp)
  | _ :: _, [], _, _, _, hl, _ => absurd hl (by simp)
  | _ :: _, _ :: _, [], _, _, _, hs => absurd hs (by simp)

/-! ## C10 -/

/-- C10: for every frame whose pixel minimum and maximum are already within
1e-5 of 0 and 1, `normalize(new_range, new_offset)` returns the pre-call
`(range, max)` pair and leaves the pixel array unchanged, for all values of
`new_range` and `new_offset`. -/
theorem normalize_shortcircuit (image : List ℚ) (new_range new_offset : ℚ)
    (hmin : |nanminQ image| ≤ 1 / 100000)
    (hmax : |nanmaxQ image - 1| ≤ 1 / 100000) :
    normalize image new_range new_offset =
      ⟨image, nanmaxQ image - nanminQ image, nanmaxQ image⟩ := by
  unfold normalize
  have h1 : npIsClose (nanminQ image) 0 = true := by
    unfold npIsClose
    simp only [decide_eq_true_eq, sub_zero, abs_zero, mul_zero, add_zero]
    exact hmin
  have h2 : npIsClose (nanmaxQ image) 1 = true := by
    unfold npIsClose
    simp only [decide_eq_true_eq, abs_one, mul_one]
    linarith
  simp [h1, h2]

/-- Witness for C10 at a concrete input: a [0, 1] image is returned untouched
even with non-default targets. -/
theorem normalize_shortcircuit_witness :
    normalize [0, 1] 5 7 = ⟨[0, 1], 1, 1⟩ := by
  have h := normalize_shortcircuit [0, 1] 5 7
    (by norm_num [nanminQ, min_def]) (by norm_num [nanmaxQ, max_def])
  simpa [nanminQ, nanmaxQ, min_def, max_def] using h

/-! ## C3 -/

/-- C3: `norm_by_weights` with `weights="auto"` and a nonempty channel list
always raises `TypeError`: `chnl.clipped_stats()` passes no argument to the
staticmethod `Frame.clipped_stats(data)`.  The channels are left unchanged. -/
theorem norm_by_weights_auto (pic : RGBPicture) (h : pic.rgb_channels ≠ []) :
    norm_by_weights pic (Weights.str "auto") = (pic, some PyErr.typeError) := by
  unfold norm_by_weights
  simp [h]

/-- Witness for C3 at a concrete input: a single-channel picture. -/
theorem norm_by_weights_auto_witness :
    norm_by_weights
      ⟨[], [⟨⟨"R", Option.none, Option.none, "&mu;m", "unknown", "unknown"⟩, [some 1]⟩]⟩
      (Weights.str "auto") =
    (⟨[], [⟨⟨"R", Option.none, Option.none, "&mu;m", "unknown", "unknown"⟩, [some 1]⟩]⟩,
      some PyErr.typeError) :=
  norm_by_weights_auto _ (by decide)

/-! ## C8 -/

/-- C8, counterexample: a 5-name selection that contains a duplicate raises
the duplicate error, not the cardinality error, so "more than 4 band names
raises a cardinality error" does not hold of every such input. -/
theorem select_rgb_channels_dup_precedence :
    (select_rgb_channels ⟨[], []⟩ ["R", "R", "G", "B", "A"]).2 =
      some PyErr.valueErrorDuplicates ∧
    PyErr.valueErrorDuplicates ≠ PyErr.valueErrorCardinality := by decide

/-- C8 (amended): a duplicate in the band names always raises the duplicate
error with the state unchanged (hence before any Frame is copied), and a
duplicate-free list of more than 4 names always raises the cardinality error
with the state unchanged; for lists with both defects the duplicate check
fires first. -/
theorem select_rgb_channels_errors (pic : RGBPicture) (bands : List String) :
    (bands.dedup.length ≠ bands.length →
      select_rgb_channels pic bands = (pic, some PyErr.valueErrorDuplicates)) ∧
    (bands.dedup.length = bands.length → 4 < bands.length →
      select_rgb_channels pic bands = (pic, some PyErr.valueErrorCardinality)) := by
  constructor
  · intro h
    unfold select_rgb_channels
    rw [if_pos h]
  · intro h h4
    unfold select_rgb_channels
    rw [if_neg (by simp [h]), if_pos h4]

/-- Witness for C8 at concrete inputs: a duplicate selection and a 5-name
duplicate-free selection. -/
theorem select_rgb_channels_errors_witness :
    select_rgb_channels ⟨[], []⟩ ["R", "R", "G"] =
      (⟨[], []⟩, some PyErr.valueErrorDuplicates) ∧
    select_rgb_channels ⟨[], []⟩ ["U", "B", "V", "R", "I"] =
      (⟨[], []⟩, some PyErr.valueErrorCardinality) :=
  ⟨(select_rgb_channels_errors _ _).1 (by decide),
   (select_rgb_channels_errors _ _).2 (by decide) (by decide)⟩

/-! ## C2 -/

/-- C2, counterexample: two frames whose wavelengths strictly increase are
selected; `select_rgb_channels` raises `UserWarning` instead of returning
normally, so the violation is not a non-fatal warning. -/
theorem select_rgb_channels_raises :
    (select_rgb_channels
      ⟨[⟨⟨"A", Option.none, some 1, "&mu;m", "unknown", "unknown"⟩, [some 1]⟩,
        ⟨⟨"B", Option.none, some 2, "&mu;m", "unknown", "unknown"⟩, [some 1]⟩], []⟩
      ["A", "B"]).2 = some PyErr.userWarning := by decide

/-- C2 (amended): whenever a valid selection (duplicate-free, 2 to 4 names,
all present) has wavelength metadata on every channel that is not in
non-increasing order, `select_rgb_channels` DOES set `rgb_channels` to the
selected (copied) frames but then raises `UserWarning` instead of returning
normally. -/
theorem select_rgb_channels_unordered (pic : RGBPicture) (bands : List String)
    (selected : List PFrame)
    (hdup : bands.dedup.length = bands.length)
    (h2 : 2 ≤ bands.length) (h4 : bands.length ≤ 4)
    (hsel : lookupAll pic.frames bands = .ok selected)
    (hwave : allWavelengths selected = true)
    (hord : orderedByWavelength selected = false) :
    select_rgb_channels pic bands =
      ({ pic with rgb_channels := selected }, some PyErr.userWarning) := by
  unfold select_rgb_channels
  rw [if_neg (by simp [hdup]), if_neg (by omega),
    if_neg (by omega : ¬bands.length = 0), hsel]
  simp [show ¬bands.length = 1 by omega, hwave, hord]

/-- Witness for C2 at a concrete input: the state change and the raise both
happen. -/
theorem select_rgb_channels_unordered_witness :
    select_rgb_channels
      ⟨[⟨⟨"C", Option.none, some 3, "&mu;m", "unknown", "unknown"⟩, [some 1]⟩,
        ⟨⟨"D", Option.none, some 4, "&mu;m", "unknown", "unknown"⟩, [some 1]⟩], []⟩
      ["C", "D"] =
    (⟨[⟨⟨"C", Option.none, some 3, "&mu;m", "unknown", "unknown"⟩, [some 1]⟩,
        ⟨⟨"D", Option.none, some 4, "&mu;m", "unknown", "unknown"⟩, [some 1]⟩],
      [⟨⟨"C", Option.none, some 3, "&mu;m", "unknown", "unknown"⟩, [some 1]⟩,
       ⟨⟨"D", Option.none, some 4, "&mu;m", "unknown", "unknown"⟩, [some 1]⟩]⟩,
     some PyErr.userWarning) :=
  select_rgb_channels_unordered _ _ _ (by decide) (by decide) (by decide)
    (by decide) (by decide) (by decide)

/-! ## C1 -/

/-- C1, counterexample: a single channel with value 0 at a pixel of zero
luminance; the identity luminance stretch keeps the stretched luminance at 0,
and the unguarded division stores NaN in the channel, so NaN does propagate. -/
theorem stretch_luminance_nan_propagates :
    stretch_luminance [[(0 : ℚ)]] (fun l _ => l) 1 [0] = [[FVal.nan]] := by decide

/-- C1 (amended): the luminance rescale of `adjust_rgb` / `stretch_luminance`
performs the division completely unguarded; at every pixel where the
pre-adjustment luminance is zero and the channel value is zero, the stored
value is NaN (the IEEE 0/0), not a safe fallback, for every channel set and
every luminance stretch function. -/
theorem stretch_luminance_zero_lum (chans : List (List ℚ))
    (fkt : List ℚ → ℚ → List ℚ) (g : ℚ) (lum : List ℚ) (i p : ℕ)
    (hi : i < chans.length)
    (hp1 : p < (chans.getD i []).length) (hp2 : p < lum.length)
    (hp3 : p < (fkt lum g).length)
    (hl : lum.getD p 0 = 0) (hc : (chans.getD i []).getD p 0 = 0) :
    ((stretch_luminance chans fkt g lum).getD i []).getD p (FVal.fin 0) =
      FVal.nan := by
  have hmap : (stretch_luminance chans fkt g lum).getD i [] =
      lumRescaleChannel (chans.getD i []) lum (fkt lum g) := by
    unfold stretch_luminance
    simp only [List.getD_eq_getElem?_getD, List.getElem?_map,
      List.getElem?_eq_getElem hi, Option.map_some', Option.getD_some]
  rw [hmap, lumRescaleChannel_getD _ _ _ p hp1 hp2 hp3, hl, hc]
  unfold applyLumPixel
  simp

/-- Witness for C1 at a concrete input: a 2-pixel channel whose first pixel
has zero luminance. -/
theorem stretch_luminance_zero_lum_witness :
    ((stretch_luminance [[(0 : ℚ), 1]] (fun l _ => l) 1 [0, 1]).getD 0 []).getD
      0 (FVal.fin 0) = FVal.nan :=
  stretch_luminance_zero_lum [[0, 1]] (fun l _ => l) 1 [0, 1] 0 0 (by decide)
    (by decide) (by decide) (by decide) (by decide) (by decide)


/-! ## C4 -/

/-- Evaluation of Frame construction on a one-pixel image (used by the C4
theorems): clipping at mean + 10 * std = 1 and NaN filling change nothing. -/
lemma mkFrame_single_one (b : Band) :
    mkFrame [some 1] b = .ok ⟨b, [some 1]⟩ := by
  have hm : nanmean [some 1] = some 1 := by
    simp only [nanmean, reals]
    rw [if_neg (by simp)]
    norm_num [meanQ]
  have hs : nanstd [some 1] = some 0 := by
    simp only [nanstd, nanvar, reals]
    norm_num [meanQ, ratSqrt_zero]
  have hcs : clipStep [some 1] 10 = .ok ([some 1], some 1) := by
    unfold clipStep
    rw [if_pos (by norm_num : ¬(10 : ℚ) = 0), if_neg (by norm_num : ¬(10 : ℚ) < 0),
      hm, hs]
    norm_num [clipUpper, min_def]
  unfold mkFrame clip_and_nan
  rw [hcs]
  simp [nanValue, assertNoNan, fillNan, hm]

/-- C4, counterexample: a Picture already holding a Frame in band "R" (at
wavelength 1) accepts a second Frame whose Band is also named "R" but has
wavelength 2: no error is raised and both frames are stored, so the
name-uniqueness invariant is violated.  Dataclass equality compares all
fields, not just the name. -/
theorem add_frame_same_name_accepted :
    add_frame
      ⟨[⟨⟨"R", Option.none, some 1, "&mu;m", "unknown", "unknown"⟩, [some 1]⟩]⟩
      [some 1]
      (BandArg.band ⟨"R", Option.none, some 2, "&mu;m", "unknown", "unknown"⟩) =
    (⟨[⟨⟨"R", Option.none, some 1, "&mu;m", "unknown", "unknown"⟩, [some 1]⟩,
       ⟨⟨"R", Option.none, some 2, "&mu;m", "unknown", "unknown"⟩, [some 1]⟩]⟩,
     Option.none) ∧
    (⟨"R", Option.none, some 1, "&mu;m", "unknown", "unknown"⟩ : Band).name =
      (⟨"R", Option.none, some 2, "&mu;m", "unknown", "unknown"⟩ : Band).name := by
  constructor
  · unfold add_frame check_band coerceBand
    rw [if_neg (by decide)]
    simp [mkFrame_single_one]
  · rfl

/-- C4 (amended): `add_frame` rejects a new frame with `BandExistsError`, and
leaves the frame list unchanged, exactly when a Band equal in ALL attributes
is already present; a Band sharing only the name is accepted and appended. -/
theorem add_frame_band_equality (pic : Picture) (img : List (Option ℚ))
    (b : Band) :
    (b ∈ pic.bands →
      add_frame pic img (BandArg.band b) = (pic, some PyErr.bandExistsError)) ∧
    (b ∉ pic.bands → ∀ f, mkFrame img b = .ok f →
      add_frame pic img (BandArg.band b) = (⟨pic.frames ++ [f]⟩, Option.none)) := by
  constructor
  · intro hb
    unfold add_frame check_band coerceBand
    rw [if_pos hb]
  · intro hb f hf
    unfold add_frame check_band coerceBand
    rw [if_neg hb]
    simp [hf]

/-- Witness for C4 at concrete inputs: an identical Band is rejected with the
state unchanged, and a fresh Band is appended without error. -/
theorem add_frame_band_equality_witness :
    add_frame
      ⟨[⟨⟨"V", Option.none, Option.none, "&mu;m", "unknown", "unknown"⟩, [some 1]⟩]⟩
      [some 1]
      (BandArg.band ⟨"V", Option.none, Option.none, "&mu;m", "unknown", "unknown"⟩) =
    (⟨[⟨⟨"V", Option.none, Option.none, "&mu;m", "unknown", "unknown"⟩, [some 1]⟩]⟩,
      some PyErr.bandExistsError) ∧
    add_frame ⟨[]⟩ [some 1]
      (BandArg.band ⟨"V", Option.none, Option.none, "&mu;m", "unknown", "unknown"⟩) =
    (⟨[⟨⟨"V", Option.none, Option.none, "&mu;m", "unknown", "unknown"⟩, [some 1]⟩]⟩,
      Option.none) := by
  constructor
  · exact (add_frame_band_equality _ _ _).1 (by decide)
  · have h := (add_frame_band_equality ⟨[]⟩ [some 1]
      ⟨"V", Option.none, Option.none, "&mu;m", "unknown", "unknown"⟩).2
      (by decide) _ (mkFrame_single_one _)
    simpa using h

/-! ## C6 -/

/-- C6, counterexample: on the one-pixel image [-1] with `sky_mode="median"`
and `max_mode="max"`, the claim hypotheses hold (i_sky = -1 <= -1 = i_max and
p_grey_g = 1/2 < 1) yet the returned pair has i_min = 0 > -1 = i_max. -/
theorem min_inten_negative_max :
    skyEstimate (apply_mask [-1] Option.none) "median" = .ok (-1) ∧
    maxEstimate (apply_mask [-1] Option.none) "max" = .ok (-1) ∧
    ((-1 : ℚ) ≤ -1 ∧ (1 : ℚ) / 2 < 1) ∧
    min_inten [-1] (1 / 2) "median" "max" Option.none = .ok (0, -1) ∧
    ¬ (0 : ℚ) ≤ -1 := by
  have hsky : skyEstimate (apply_mask [-1] Option.none) "median" = .ok (-1) := by
    unfold apply_mask skyEstimate
    rw [if_neg (by decide), if_pos rfl]
    norm_num [medianQ, sortQ, insertSorted]
  have hmax : maxEstimate (apply_mask [-1] Option.none) "max" = .ok (-1) := by
    unfold apply_mask maxEstimate
    rw [if_neg (by decide), if_pos rfl]
    norm_num [nanmaxQ]
  refine ⟨hsky, hmax, by norm_num, ?_, by norm_num⟩
  simp only [min_inten, hsky, hmax]
  norm_num [max_def]

/-- C6 (amended): for every valid sky estimate and NONNEGATIVE maximum
estimate with `i_sky <= i_max` and `p_grey_g < 1`, `_min_inten` returns a
pair with `0 <= i_min` and `i_min <= i_max`.  (Without `0 <= i_max` the
second inequality can fail, as the counterexample shows.) -/
theorem min_inten_bounds (data : List ℚ) (mask : Option (List Bool))
    (p_grey_g : ℚ) (sky_mode max_mode : String) (s M : ℚ)
    (hs : skyEstimate (apply_mask data mask) sky_mode = .ok s)
    (hM : maxEstimate (apply_mask data mask) max_mode = .ok M)
    (hle : s ≤ M) (hM0 : 0 ≤ M) (hp : p_grey_g < 1) :
    min_inten data p_grey_g sky_mode max_mode mask =
      .ok (max ((s - p_grey_g * M) / (1 - p_grey_g)) 0, M) ∧
    0 ≤ max ((s - p_grey_g * M) / (1 - p_grey_g)) 0 ∧
    max ((s - p_grey_g * M) / (1 - p_grey_g)) 0 ≤ M := by
  refine ⟨?_, le_max_right _ _, ?_⟩
  · simp only [min_inten, hs, hM]
  · apply max_le _ hM0
    rw [div_le_iff₀ (by linarith : (0 : ℚ) < 1 - p_grey_g)]
    nlinarith

/-- Witness for C6 at a concrete input: the two-pixel image [0, 1] with
median sky 1/2, max 1 and p_grey_g = 1/4. -/
theorem min_inten_bounds_witness :
    min_inten [0, 1] (1 / 4) "median" "max" Option.none =
      .ok (max (((1 : ℚ) / 2 - 1 / 4 * 1) / (1 - 1 / 4)) 0, 1) ∧
    (0 : ℚ) ≤ max (((1 : ℚ) / 2 - 1 / 4 * 1) / (1 - 1 / 4)) 0 ∧
    max (((1 : ℚ) / 2 - 1 / 4 * 1) / (1 - 1 / 4)) 0 ≤ 1 :=
  min_inten_bounds [0, 1] Option.none (1 / 4) "median" "max" (1 / 2) 1
    (by unfold apply_mask skyEstimate
        rw [if_neg (by decide), if_pos rfl]
        norm_num [medianQ, sortQ, insertSorted])
    (by unfold apply_mask maxEstimate
        rw [if_neg (by decide), if_pos rfl]
        norm_num [nanmaxQ, max_def])
    (by norm_num) (by norm_num) (by norm_num)

/-! ## C7 -/

/-- Folding min over a list mapped by a min-preserving function. -/
lemma foldl_min_map (f : ℚ → ℚ)
    (hf : ∀ a b : ℚ, f (min a b) = min (f a) (f b)) :
    ∀ (xs : List ℚ) (x : ℚ), (xs.map f).foldl min (f x) = f (xs.foldl min x)
  | [], _ => rfl
  | y :: ys, x => by
    simp only [List.map_cons, List.foldl_cons, ← hf]
    exact foldl_min_map f hf ys (min x y)

/-- Folding max over a list mapped by a max-preserving function. -/
lemma foldl_max_map (f : ℚ → ℚ)
    (hf : ∀ a b : ℚ, f (max a b) = max (f a) (f b)) :
    ∀ (xs : List ℚ) (x : ℚ), (xs.map f).foldl max (f x) = f (xs.foldl max x)
  | [], _ => rfl
  | y :: ys, x => by
    simp only [List.map_cons, List.foldl_cons, ← hf]
    exact foldl_max_map f hf ys (max x y)

/-- The minimum of a mapped nonempty list, for min-preserving maps. -/
lemma nanminQ_map (f : ℚ → ℚ)
    (hf : ∀ a b : ℚ, f (min a b) = min (f a) (f b)) :
    ∀ (xs : List ℚ), xs ≠ [] → nanminQ (xs.map f) = f (nanminQ xs)
  | [], h => absurd rfl h
  | x :: t, _ => by
    simp only [nanminQ, List.map_cons]
    exact foldl_min_map f hf t x

/-- The maximum of a mapped nonempty list, for max-preserving maps. -/
lemma nanmaxQ_map (f : ℚ → ℚ)
    (hf : ∀ a b : ℚ, f (max a b) = max (f a) (f b)) :
    ∀ (xs : List ℚ), xs ≠ [] → nanmaxQ (xs.map f) = f (nanmaxQ xs)
  | [], h => absurd rfl h
  | x :: t, _ => by
    simp only [nanmaxQ, List.map_cons]
    exact foldl_max_map f hf t x

/-- C7, counterexample: the two-pixel image [0, 1.000015] is non-degenerate
and already `np.isclose`-close to (0, 1) (the bound at the max is
atol + rtol * 1 = 2e-5), so `normalize` short-circuits and the output
maximum stays 1.000015, which is NOT within 1e-5 of 1. -/
theorem normalize_tolerance_violation :
    0 < nanmaxQ [0, 1000015 / 1000000] - nanminQ [0, 1000015 / 1000000] ∧
    (normalize [0, 1000015 / 1000000] 1 0).image = [0, 1000015 / 1000000] ∧
    ¬ |nanmaxQ ((normalize [0, 1000015 / 1000000] 1 0).image) - 1| ≤
        1 / 100000 := by
  have hmin : nanminQ [0, 1000015 / 1000000] = 0 := by
    norm_num [nanminQ, min_def]
  have hmax : nanmaxQ [0, 1000015 / 1000000] = 1000015 / 1000000 := by
    norm_num [nanmaxQ, max_def]
  have h1 : npIsClose (nanminQ [0, 1000015 / 1000000]) 0 = true := by
    rw [hmin]
    unfold npIsClose
    norm_num
  have h2 : npIsClose (nanmaxQ [0, 1000015 / 1000000]) 1 = true := by
    rw [hmax]
    simp only [npIsClose, decide_eq_true_eq, abs_one, mul_one]
    rw [abs_of_nonneg (by norm_num : (0 : ℚ) ≤ 1000015 / 1000000 - 1)]
    norm_num
  have himg : (normalize [0, 1000015 / 1000000] 1 0).image =
      [0, 1000015 / 1000000] := by
    simp only [normalize, h1, h2]
    simp
  refine ⟨by rw [hmax, hmin]; norm_num, himg, ?_⟩
  rw [himg, hmax]
  rw [abs_of_nonneg (by norm_num : (0 : ℚ) ≤ 1000015 / 1000000 - 1)]
  norm_num

/-- C7 (amended): for nonempty input with strictly positive range, a single
`normalize` call with default targets leaves the minimum within 1e-5 of 0 and
the maximum within 2e-5 of 1 (`np.isclose` uses atol=1e-5 AND the default
rtol=1e-5, so the short-circuit admits up to 2e-5 at the max), and a second
call returns the pixel array of the first call exactly. -/
theorem normalize_bounds_idem (img : List ℚ) (hne : img ≠ [])
    (hr : 0 < nanmaxQ img - nanminQ img) :
    |nanminQ ((normalize img 1 0).image)| ≤ 1 / 100000 ∧
    |nanmaxQ ((normalize img 1 0).image) - 1| ≤ 1 / 50000 ∧
    (normalize ((normalize img 1 0).image) 1 0).image =
      (normalize img 1 0).image := by
  by_cases hc : (npIsClose (nanminQ img) 0 && npIsClose (nanmaxQ img) 1) = true
  · have himg : (normalize img 1 0).image = img := by
      unfold normalize
      rw [if_pos hc]
    rw [Bool.and_eq_true] at hc
    have hb1 : |nanminQ img| ≤ 1 / 100000 := by
      have := hc.1
      unfold npIsClose at this
      simp only [decide_eq_true_eq, sub_zero, abs_zero, mul_zero, add_zero]
        at this
      exact this
    have hb2 : |nanmaxQ img - 1| ≤ 1 / 50000 := by
      have := hc.2
      unfold npIsClose at this
      simp only [decide_eq_true_eq, abs_one, mul_one] at this
      linarith
    refine ⟨by rw [himg]; exact hb1, by rw [himg]; exact hb2, ?_⟩
    rw [himg]
    unfold normalize
    rw [if_pos (by rw [Bool.and_eq_true]; exact hc)]
  · have himg : (normalize img 1 0).image =
        img.map (fun x =>
          (x - nanminQ img) / (nanmaxQ img - nanminQ img) * 1 + 0) := by
      unfold normalize
      rw [if_neg hc]
    have hmono : Monotone (fun x : ℚ =>
        (x - nanminQ img) / (nanmaxQ img - nanminQ img) * 1 + 0) := by
      intro a b hab
      simp only [mul_one]
      gcongr
    have hminout : nanminQ ((normalize img 1 0).image) = 0 := by
      rw [himg, nanminQ_map _ (fun a b => hmono.map_min) img hne]
      simp
    have hmaxout : nanmaxQ ((normalize img 1 0).image) = 1 := by
      rw [himg, nanmaxQ_map _ (fun a b => hmono.map_max) img hne]
      simp only [mul_one, add_zero]
      rw [div_self (ne_of_gt hr)]
    refine ⟨by rw [hminout]; norm_num, by rw [hmaxout]; norm_num, ?_⟩
    generalize hout : (normalize img 1 0).image = out at hminout hmaxout
    unfold normalize
    rw [hminout, hmaxout]
    rw [if_pos (by unfold npIsClose; norm_num)]

/-- Witness for C7 at a concrete input: the image [0, 2]. -/
theorem normalize_bounds_idem_witness :
    |nanminQ ((normalize [0, 2] 1 0).image)| ≤ 1 / 100000 ∧
    |nanmaxQ ((normalize [0, 2] 1 0).image) - 1| ≤ 1 / 50000 ∧
    (normalize ((normalize [0, 2] 1 0).image) 1 0).image =
      (normalize [0, 2] 1 0).image :=
  normalize_bounds_idem [0, 2] (by simp)
    (by norm_num [nanminQ, nanmaxQ, min_def, max_def])

/-! ## C5 -/

/-- A successful NaN assertion returns the input, which then holds no NaN. -/
lemma assertNoNan_ok {img out : List (Option ℚ)}
    (h : assertNoNan img = .ok out) :
    out = img ∧ ∀ x ∈ out, x.isSome = true := by
  unfold assertNoNan at h
  split at h
  · cases h
  · next hany =>
    cases h
    refine ⟨rfl, ?_⟩
    intro x hx
    rw [List.any_eq_true] at hany
    push_neg at hany
    have hnot := hany x hx
    cases x with
    | none => simp at hnot
    | some q => rfl

/-- Every element of a filled image is the fill value or a survivor. -/
lemma mem_fillNan {x : Option ℚ} {img : List (Option ℚ)} {v : Option ℚ}
    (h : x ∈ fillNan img v) : x = v ∨ ∃ q : ℚ, x = some q ∧ some q ∈ img := by
  unfold fillNan at h
  rw [List.mem_map] at h
  obtain ⟨a, ha, rfl⟩ := h
  cases a with
  | none => exact .inl rfl
  | some q => exact .inr ⟨q, rfl, ha⟩

/-- Every real value surviving an upper clip is at most the clip limit. -/
lemma mem_clipUpper_le {q : ℚ} {img : List (Option ℚ)} {T : ℚ}
    (h : some q ∈ clipUpper img (some T)) : q ≤ T := by
  unfold clipUpper at h
  rw [List.mem_map] at h
  obtain ⟨a, _, heq⟩ := h
  cases a with
  | none => simp at heq
  | some z =>
    simp only [Option.map_some'] at heq
    cases heq
    exact min_le_right z T

/-- C5: whenever `clip_and_nan` returns, the image holds zero NaNs; and, when
`clip_sigma > 0`, additionally no value strictly above the threshold
`mean + clip_sigma * stddev` computed from the original (pre-clip,
NaN-ignoring) array — the fill values included. -/
theorem clip_and_nan_post (image : List (Option ℚ)) (clip : ℚ)
    (nanmode : String) (out : List (Option ℚ))
    (h : clip_and_nan image clip nanmode = .ok out) :
    (∀ x ∈ out, x.isSome = true) ∧
    (0 < clip → ∀ m s, nanmean image = some m → nanstd image = some s →
      ∀ x ∈ out, x.getD 0 ≤ m + clip * s) := by
  constructor
  · -- zero NaNs: every successful run ends in a passed NaN assertion
    unfold clip_and_nan at h
    rcases hcs : clipStep image clip with e | p
    · rw [hcs] at h; cases h
    · obtain ⟨img1, upper⟩ := p
      rw [hcs] at h
      dsimp only at h
      rcases hnv : nanValue (nanmean image) upper nanmode with e | v
      · rw [hnv] at h; cases h
      · rw [hnv] at h
        dsimp only at h
        exact (assertNoNan_ok h).2
  · intro hclip m s hm hstd
    have hsnn : 0 ≤ s := nanstd_nonneg hstd
    -- with 0 < clip the clipping stage used the threshold m + clip * s
    have hcs : clipStep image clip =
        .ok (clipUpper image (some (m + clip * s)), some (m + clip * s)) := by
      unfold clipStep
      rw [if_pos (ne_of_gt hclip), if_neg (not_lt.mpr hclip.le), hm, hstd]
    unfold clip_and_nan at h
    rw [hcs] at h
    dsimp only at h
    rcases hnv : nanValue (nanmean image) (some (m + clip * s)) nanmode
      with e | v
    · rw [hnv] at h; cases h
    · rw [hnv] at h
      dsimp only at h
      obtain ⟨rfl, hsome⟩ := assertNoNan_ok h
      have hvle : ∀ q : ℚ, v = some q → q ≤ m + clip * s := by
        intro q hv
        unfold nanValue at hnv
        by_cases hmx : nanmode = "max"
        · rw [if_pos hmx] at hnv
          injection hnv with hnv
          rw [← hnv] at hv
          injection hv with hv
          rw [← hv]
        · rw [if_neg hmx] at hnv
          by_cases hmd : nanmode = "median"
          · rw [if_pos hmd] at hnv
            injection hnv with hnv
            rw [← hnv, hm] at hv
            injection hv with hv
            nlinarith
          · rw [if_neg hmd] at hnv
            cases hnv
      intro x hx
      rcases mem_fillNan hx with rfl | ⟨q, rfl, hq⟩
      · -- x is the fill value; it is `some` by the assertion
        have hx2 := hsome _ hx
        cases hxv : x with
        | none => rw [hxv] at hx2; cases hx2
        | some q => simpa using hvle q hxv
      · -- x survived the upper clip
        simpa using mem_clipUpper_le hq

/-- Witness for C5 at a concrete input: the image [0, NaN, 2] with
`clip = 3` and `nanmode = "max"`; the threshold is 1 + 3 * 1 = 4 and the NaN
is filled with it. -/
theorem clip_and_nan_post_witness :
    clip_and_nan [some 0, Option.none, some 2] 3 "max" =
      .ok [some 0, some 4, some 2] ∧
    (0 : ℚ) < 3 ∧
    nanmean [some 0, Option.none, some 2] = some 1 ∧
    nanstd [some 0, Option.none, some 2] = some 1 ∧
    (∀ x ∈ [some (0 : ℚ), some 4, some 2], x.isSome = true) ∧
    (∀ x ∈ [some (0 : ℚ), some 4, some 2], x.getD 0 ≤ 1 + 3 * 1) := by
  have hm : nanmean [some 0, Option.none, some 2] = some 1 := by
    simp only [nanmean, reals]
    rw [if_neg (by simp)]
    norm_num [meanQ]
  have hs : nanstd [some 0, Option.none, some 2] = some 1 := by
    simp only [nanstd, nanvar, reals]
    norm_num [meanQ, ratSqrt_one]
  have hcs : clipStep [some 0, Option.none, some 2] 3 =
      .ok ([some 0, Option.none, some 2], some 4) := by
    unfold clipStep
    rw [if_pos (by norm_num : ¬(3 : ℚ) = 0), if_neg (by norm_num : ¬(3 : ℚ) < 0),
      hm, hs]
    norm_num [clipUpper, min_def]
  have h : clip_and_nan [some 0, Option.none, some 2] 3 "max" =
      .ok [some 0, some 4, some 2] := by
    unfold clip_and_nan
    rw [hcs]
    simp [nanValue, assertNoNan, fillNan]
  exact ⟨h, by norm_num, hm, hs, (clip_and_nan_post _ _ _ _ h).1,
    (clip_and_nan_post _ _ _ _ h).2 (by norm_num) 1 1 hm hs⟩

/-! ## C9 -/

/-- Clipped saturation outputs are nonnegative. -/
lemma mem_clipNegatives_nonneg {x : ℚ} {xs : List ℚ}
    (h : x ∈ clipNegatives xs) : 0 ≤ x := by
  unfold clipNegatives at h
  rw [List.mem_map] at h
  obtain ⟨y, _, rfl⟩ := h
  split_ifs with hy
  · exact le_refl 0
  · exact not_lt.mp hy

/-- The luminance rescale keeps nonnegative channels nonnegative when the
luminance is strictly positive and the stretched luminance nonnegative. -/
lemma lumRescaleChannel_nonneg :
    ∀ (c l s : List ℚ), (∀ a ∈ c, 0 ≤ a) → (∀ a ∈ l, 0 < a) →
      (∀ a ∈ s, 0 ≤ a) → ∀ v ∈ lumRescaleChannel c l s, v.isNeg = false
  | c0 :: cs, l0 :: ls, s0 :: ss, hc, hl, hs => by
    intro v hv
    have hv2 : v = applyLumPixel c0 l0 s0 ∨ v ∈ lumRescaleChannel cs ls ss := by
      simpa [lumRescaleChannel] using hv
    rcases hv2 with rfl | hv2
    · have hl0 : 0 < l0 := hl l0 (by simp)
      unfold applyLumPixel
      rw [if_neg (ne_of_gt hl0)]
      simp only [FVal.isNeg, decide_eq_false_iff_not, not_lt]
      exact mul_nonneg (div_nonneg (hc c0 (by simp)) hl0.le) (hs s0 (by simp))
    · exact lumRescaleChannel_nonneg cs ls ss
        (fun a ha => hc a (List.mem_cons_of_mem _ ha))
        (fun a ha => hl a (List.mem_cons_of_mem _ ha))
        (fun a ha => hs a (List.mem_cons_of_mem _ ha)) v hv2
  | [], _, _, _, _, _ => by intro v hv; simp [lumRescaleChannel] at hv
  | _ :: _, [], _, _, _, _ => by intro v hv; simp [lumRescaleChannel] at hv
  | _ :: _, _ :: _, [], _, _, _ => by intro v hv; simp [lumRescaleChannel] at hv

/-- C9, counterexample: three constant channels with alpha = 0 pass the
saturation clip with value 1, but a luminance stretch function with negative
output leaves the final stored arrays strictly negative — the clip does not
protect the completed result of `adjust_rgb`. -/
theorem adjust_rgb_negative_output :
    adjust_rgb 0 (fun l _ => l.map (fun x => -x)) 1 [[1], [1], [1]] =
      .ok [[FVal.fin (-1)], [FVal.fin (-1)], [FVal.fin (-1)]] ∧
    (FVal.fin (-1)).isNeg = true := by
  constructor
  · have hlum : luminance [[(1 : ℚ)], [1], [1]] = [1] := by
      norm_num [luminance]
    unfold adjust_rgb
    rw [if_neg (by norm_num), if_neg (by norm_num)]
    rw [hlum]
    norm_num [satChannel, clipNegatives, stretch_luminance, lumRescaleChannel,
      applyLumPixel, List.range_succ, hlum]
  · rfl

/-- C9 (amended): after the per-channel saturation step every negative
intermediate IS clipped to zero, and the channel arrays stored at completion
of `adjust_rgb` contain no negative values PROVIDED the pre-adjustment
luminance is strictly positive at every pixel and the luminance stretch
function output is nonnegative at every pixel; without that proviso the final
luminance rescale can reintroduce negative values. -/
theorem adjust_rgb_nonneg (alpha gamma_lum : ℚ)
    (fkt : List ℚ → ℚ → List ℚ) (chans : List (List ℚ))
    (out : List (List FVal))
    (hl : ∀ l ∈ luminance chans, 0 < l)
    (hs : ∀ s ∈ fkt (luminance chans) gamma_lum, 0 ≤ s)
    (h : adjust_rgb alpha fkt gamma_lum chans = .ok out) :
    ∀ ch ∈ out, ∀ v ∈ ch, v.isNeg = false := by
  simp only [adjust_rgb] at h
  split at h
  · cases h
  · split at h
    · cases h
    · cases h
      intro ch hch v hv
      unfold stretch_luminance at hch
      rw [List.mem_map] at hch
      obtain ⟨c, hc, rfl⟩ := hch
      rw [List.mem_map] at hc
      obtain ⟨i, _, rfl⟩ := hc
      exact lumRescaleChannel_nonneg _ _ _
        (fun a ha => mem_clipNegatives_nonneg ha) hl hs v hv

/-- Witness for C9 at a concrete input: three constant channels, alpha = 1
and the identity luminance stretch. -/
theorem adjust_rgb_nonneg_witness :
    adjust_rgb 1 (fun l _ => l) 1 [[1], [1], [1]] =
      .ok [[FVal.fin 1], [FVal.fin 1], [FVal.fin 1]] ∧
    ∀ ch ∈ [[FVal.fin 1], [FVal.fin 1], [FVal.fin 1]],
      ∀ v ∈ ch, v.isNeg = false := by
  have hlum : luminance [[(1 : ℚ)], [1], [1]] = [1] := by
    norm_num [luminance]
  have h : adjust_rgb 1 (fun l _ => l) 1 [[1], [1], [1]] =
      .ok [[FVal.fin 1], [FVal.fin 1], [FVal.fin 1]] := by
    unfold adjust_rgb
    rw [if_neg (by norm_num), if_neg (by norm_num)]
    rw [hlum]
    norm_num [satChannel, clipNegatives, stretch_luminance, lumRescaleChannel,
      applyLumPixel, List.range_succ, hlum]
  exact ⟨h, adjust_rgb_nonneg 1 1 (fun l _ => l) [[1], [1], [1]]
    [[FVal.fin 1], [FVal.fin 1], [FVal.fin 1]]
    (by rw [hlum]; norm_num) (by rw [hlum]; norm_num) h⟩

end Prepipy
